import Mathlib

/-!
Verification of the structured-logging and response-envelope layer of the
`hono-starter` backend (files `src/lib/utils/response-utils.ts`,
`src/lib/core/create-router.ts` and the structured logger in
`src/lib/core/hono-logger.ts`).

JavaScript runtime values relevant to the envelope builders are embedded as
the inductive type `JSVal` below; plain objects are ordered association
lists of string keys (the builders never create duplicate keys).
-/

/-- Model of a JSON-serializable JavaScript runtime value, plus `undefined`.
Numbers are embedded as integers: every number the envelope layer produces
(status codes, pagination counters, list lengths) is integral. -/
inductive JSVal where
  | undefined : JSVal
  | null : JSVal
  | bool : Bool → JSVal
  | num : Int → JSVal
  | str : String → JSVal
  | arr : List JSVal → JSVal
  | obj : List (String × JSVal) → JSVal
deriving Repr

/-- JavaScript truthiness: `undefined`, `null`, `false`, `0` and `""` are
falsy, every other value (objects and arrays included) is truthy. -/
def jsTruthy : JSVal → Bool
  | .undefined => false
  | .null => false
  | .bool b => b
  | .num n => n != 0
  | .str s => s ≠ ""
  | .arr _ => true
  | .obj _ => true

/-- First-match lookup of a key in an object's property list (JS objects
cannot hold duplicate keys; the builders keep keys distinct). -/
def lookupKey : List (String × JSVal) → String → Option JSVal
  | [], _ => none
  | (k', v) :: rest, k => if k' = k then some v else lookupKey rest k

/-- Property presence/lookup on a value: `some v` when the value is an
object carrying the key, `none` otherwise. -/
def lookupField : JSVal → String → Option JSVal
  | .obj fs, k => lookupKey fs k
  | _, _ => none

/-- Two-level property lookup (`v.k1.k2`). -/
def lookupField2 (v : JSVal) (k1 k2 : String) : Option JSVal :=
  match lookupField v k1 with
  | some v' => lookupField v' k2
  | none => none

/-- JavaScript member access `v.k` as evaluated on a truthy value: missing
properties and non-object receivers yield `undefined`. -/
def getField : JSVal → String → JSVal
  | .obj fs, k => (lookupKey fs k).getD .undefined
  | _, _ => .undefined

/-- Strict equality against the literal `false` (`x === false`): only the
boolean `false` compares equal. -/
def isFalseVal : JSVal → Bool
  | .bool false => true
  | _ => false

/-- Strict equality against the literal `true` (`x === true`). -/
def isTrueVal : JSVal → Bool
  | .bool true => true
  | _ => false

mutual
/-- Model of the platform round trip `JSON.parse(JSON.stringify(v))` on the
embedded value space: `undefined` at top level serializes to no JSON text
(`none`); inside arrays it becomes `null`; object properties whose value is
`undefined` are dropped. All other values survive unchanged. -/
def jsonRoundTrip : JSVal → Option JSVal
  | .undefined => none
  | .null => some .null
  | .bool b => some (.bool b)
  | .num n => some (.num n)
  | .str s => some (.str s)
  | .arr xs => some (.arr (jsonRoundTripElems xs))
  | .obj fs => some (.obj (jsonRoundTripProps fs))

/-- Round trip of array elements: `undefined` entries become `null`. -/
def jsonRoundTripElems : List JSVal → List JSVal
  | [] => []
  | x :: xs => ((jsonRoundTrip x).getD .null) :: jsonRoundTripElems xs

/-- Round trip of object properties: properties with `undefined` value are
dropped by `JSON.stringify`. -/
def jsonRoundTripProps : List (String × JSVal) → List (String × JSVal)
  | [] => []
  | (k, v) :: fs =>
    match jsonRoundTrip v with
    | some v' => (k, v') :: jsonRoundTripProps fs
    | none => jsonRoundTripProps fs
end

/-- Modelled from the spec: the module `src/lib/http/status-codes` (its
source is not part of the repository snapshot) exports a fixed enumeration
of HTTP status-code keys. Only the keys exercised by the spec and by the
in-snapshot callers are modelled. -/
inductive HTTPStatusKey where
  | OK | CREATED | ACCEPTED | NO_CONTENT
  | BAD_REQUEST | UNAUTHORIZED | FORBIDDEN | NOT_FOUND
  | UNPROCESSABLE_ENTITY | INTERNAL_SERVER_ERROR
deriving DecidableEq, Repr

/-- Modelled from the spec: the numeric status value of each key in the
missing `src/lib/http/status-codes` module (standard HTTP numbering; the
spec fixes `OK = 200`, `NO_CONTENT = 204` and `UNPROCESSABLE_ENTITY =
422`). -/
def HTTP : HTTPStatusKey → Int
  | .OK => 200
  | .CREATED => 201
  | .ACCEPTED => 202
  | .NO_CONTENT => 204
  | .BAD_REQUEST => 400
  | .UNAUTHORIZED => 401
  | .FORBIDDEN => 403
  | .NOT_FOUND => 404
  | .UNPROCESSABLE_ENTITY => 422
  | .INTERNAL_SERVER_ERROR => 500

/-- Modelled from the spec: the standard reason-phrase table of the missing
`src/lib/http/status-codes` module, keyed by numeric status ("defaults to
the status code's standard phrase"); `none` for unmapped codes. -/
def HTTP_STATUS_PHRASE (code : Int) : Option String :=
  if code = 200 then some "OK"
  else if code = 201 then some "Created"
  else if code = 202 then some "Accepted"
  else if code = 204 then some "No Content"
  else if code = 400 then some "Bad Request"
  else if code = 401 then some "Unauthorized"
  else if code = 403 then some "Forbidden"
  else if code = 404 then some "Not Found"
  else if code = 422 then some "Unprocessable Entity"
  else if code = 500 then some "Internal Server Error"
  else none

/-- Modelled from the spec: the numeric constant `UNPROCESSABLE_ENTITY`
exported by the missing status-codes module and used by the validation
hook. -/
def UNPROCESSABLE_ENTITY : Int := HTTP .UNPROCESSABLE_ENTITY

/-- Options record of `HONO_ERROR` (`ErrorOptions` in
`response-utils.ts`); `none` models an absent/`undefined` property, so the
destructuring defaults of the source apply exactly on `none`. Issues are
kept as raw JS objects, matching the source's untyped construction. -/
structure ErrorOptions where
  name : Option String := none
  issues : Option (List JSVal) := none
  timestamp : Option Bool := none
  requestId : Option String := none

/-- Options record of `HONO_RESPONSE` (`ResponseOptions` in
`response-utils.ts`); `none` models an absent/`undefined` property. -/
structure ResponseOptions where
  data : Option JSVal := none
  message : Option String := none
  statusCode : Option HTTPStatusKey := none
  timestamp : Option Bool := none
  requestId : Option String := none

/-- JavaScript `a || b` specialised to string candidates: an absent or
empty (falsy) string falls through to the alternative. -/
def strOr (a : Option String) (b : String) : String :=
  match a with
  | some s => if s = "" then b else s
  | none => b

/-- JavaScript truthiness test for an optional string, as used by the
source's `if (requestId)` guard: present and non-empty. -/
def truthyOptStr (a : Option String) : Bool :=
  match a with
  | some s => s ≠ ""
  | none => false

/-- The `errorIssues` computation of `HONO_ERROR`: `issues || [{ message }]`
— the default fires only when `issues` is absent (arrays, even empty ones,
are truthy in JS). -/
def errorIssuesOf (issues : Option (List JSVal)) (message : String) :
    List JSVal :=
  issues.getD [.obj [("message", .str message)]]

/-- `HONO_ERROR` from `response-utils.ts`: builds the error envelope object
field by field in source order. `now` stands for the
`new Date().toISOString()` capture made when the timestamp flag is on. -/
def HONO_ERROR (statusCode : HTTPStatusKey) (message : String)
    (options : ErrorOptions) (now : String) : JSVal :=
  let statusValue := HTTP statusCode
  let defaultName := (HTTP_STATUS_PHRASE statusValue).getD "Error"
  let name := options.name.getD defaultName
  let timestamp := options.timestamp.getD true
  let errorIssues := errorIssuesOf options.issues message
  .obj ([("success", .bool false),
         ("error", .obj [("name", .str name),
                         ("issues", .arr errorIssues)]),
         ("statusCode", .num statusValue)]
    ++ (if timestamp then [("timestamp", .str now)] else [])
    ++ (if truthyOptStr options.requestId
        then [("requestId", .str (options.requestId.getD ""))] else []))

/-- The per-status default-message table of `HONO_RESPONSE`
(`defaultMessages` in the source, a partial record). -/
def defaultMessages : HTTPStatusKey → Option String
  | .OK => some "Operation completed successfully"
  | .CREATED => some "Resource created successfully"
  | .ACCEPTED => some "Request accepted for processing"
  | .NO_CONTENT => some "Operation completed successfully"
  | _ => none

/-- `HONO_RESPONSE` from `response-utils.ts`: builds the success envelope.
The `data` property is attached only when provided and the status key is
not `NO_CONTENT`; `now` stands for the `new Date().toISOString()` capture.
-/
def HONO_RESPONSE (options : ResponseOptions) (now : String) : JSVal :=
  let statusCode := options.statusCode.getD .OK
  let timestamp := options.timestamp.getD true
  let statusValue := HTTP statusCode
  let responseMessage :=
    strOr options.message
      (strOr (defaultMessages statusCode) "Operation completed successfully")
  .obj ([("success", .bool true),
         ("message", .str responseMessage),
         ("statusCode", .num statusValue)]
    ++ (match options.data with
        | some d => if statusCode = .NO_CONTENT then [] else [("data", d)]
        | none => [])
    ++ (if timestamp then [("timestamp", .str now)] else [])
    ++ (if truthyOptStr options.requestId
        then [("requestId", .str (options.requestId.getD ""))] else []))

/-- Pagination argument of `HONO_PAGINATED_RESPONSE`; `hasNext`/`hasPrev`
are optional (`??` in the source is nullish coalescing, so a supplied
`false` is kept). -/
structure Pagination where
  page : Int
  limit : Int
  total : Int
  totalPages : Int
  hasNext : Option Bool := none
  hasPrev : Option Bool := none

/-- The `paginationData` object computed inside `HONO_PAGINATED_RESPONSE`:
the caller's pagination spread first, then `hasNext`/`hasPrev` derived via
`??` when not supplied. -/
def paginationData (p : Pagination) : JSVal :=
  .obj [("page", .num p.page),
        ("limit", .num p.limit),
        ("total", .num p.total),
        ("totalPages", .num p.totalPages),
        ("hasNext", .bool (p.hasNext.getD (p.page < p.totalPages))),
        ("hasPrev", .bool (p.hasPrev.getD (p.page > 1)))]

/-- `HONO_PAGINATED_RESPONSE` from `response-utils.ts`: wraps
`{ items, pagination }` as `data` and defaults the message to
`Retrieved N items` via `options.message || ...`. -/
def HONO_PAGINATED_RESPONSE (data : List JSVal) (p : Pagination)
    (options : ResponseOptions) (now : String) : JSVal :=
  HONO_RESPONSE
    { options with
      data := some (.obj [("items", .arr data),
                          ("pagination", paginationData p)]),
      message := some (strOr options.message
        ("Retrieved " ++ toString data.length ++ " items")) }
    now

/-- `isErrorResponse` from `response-utils.ts`:
`response && response.success === false`. JS `&&` returns its first falsy
operand, so the predicate returns the (falsy) input itself rather than a
boolean when the input is falsy. -/
def isErrorResponse (response : JSVal) : JSVal :=
  if jsTruthy response then .bool (isFalseVal (getField response "success"))
  else response

/-- `isSuccessResponse` from `response-utils.ts`:
`response && response.success === true`. -/
def isSuccessResponse (response : JSVal) : JSVal :=
  if jsTruthy response then .bool (isTrueVal (getField response "success"))
  else response

/-- A structured validation issue as produced by the schema-validation
collaborator (Zod): message, field path (elements already rendered as
strings; numeric indices render to their decimal form) and issue code. -/
structure ZodIssue where
  message : String
  path : List String
  code : String
deriving DecidableEq, Repr

/-- The per-issue mapping of `createDefaultHook`
(`create-router.ts:33-37`): `path.join(".") || undefined` and
`code || undefined` leave an `undefined`-valued property when the joined
path (resp. the code) is the empty string. -/
def zodIssueToJS (issue : ZodIssue) : JSVal :=
  .obj [("message", .str issue.message),
        ("path", if String.intercalate "." issue.path = "" then .undefined
                 else .str (String.intercalate "." issue.path)),
        ("code", if issue.code = "" then .undefined else .str issue.code)]

/-- The validation result handed to the hook by the routing layer:
`success`, and the structured issues when available. `none` collapses the
source's equivalent unavailable cases (no `error` property, or
`result.error?.issues` nullish). -/
structure HookResult where
  success : Bool
  errorIssues : Option (List ZodIssue)

/-- `createDefaultHook` from `create-router.ts`: on a failed validation
result returns `c.json(errorResponse, UNPROCESSABLE_ENTITY)`, modelled as
`some (body, status)`; on success the hook returns `undefined` (`none`).
`requestId` is the value of `c.get("requestId")`; `now` the timestamp
capture inside `HONO_ERROR`. -/
def createDefaultHook (includeErrorDetails : Bool) (result : HookResult)
    (requestId : Option String) (now : String) : Option (JSVal × Int) :=
  if result.success then none
  else
    let issues :=
      match includeErrorDetails, result.errorIssues with
      | true, some zi => zi.map zodIssueToJS
      | _, _ => [.obj [("message", .str "Validation failed")]]
    some (HONO_ERROR .UNPROCESSABLE_ENTITY "Validation failed"
      { name := some "Validation Error", issues := some issues,
        timestamp := some true, requestId := requestId } now,
      UNPROCESSABLE_ENTITY)

/-- One hex digit of a JS `parseInt(s, 16)` conversion. -/
def hexDigitVal (c : Char) : Nat :=
  if '0' ≤ c ∧ c ≤ '9' then c.toNat - '0'.toNat
  else if 'a' ≤ c ∧ c ≤ 'f' then c.toNat - 'a'.toNat + 10
  else if 'A' ≤ c ∧ c ≤ 'F' then c.toNat - 'A'.toNat + 10
  else 0

/-- `hexToAnsi` from `hono-logger.ts`: converts `#rrggbb…` to a truecolor
ANSI escape sequence (foreground 38, background 48). -/
def hexToAnsi (hex : String) (isBg : Bool) : String :=
  let cs := hex.toList
  let r := hexDigitVal (cs.getD 1 '0') * 16 + hexDigitVal (cs.getD 2 '0')
  let g := hexDigitVal (cs.getD 3 '0') * 16 + hexDigitVal (cs.getD 4 '0')
  let b := hexDigitVal (cs.getD 5 '0') * 16 + hexDigitVal (cs.getD 6 '0')
  "\x1b[" ++ (if isBg then "48" else "38") ++ ";2;" ++ toString r ++ ";"
    ++ toString g ++ ";" ++ toString b ++ "m"

/-- `COLORS.Reset` from `hono-logger.ts`. -/
def COLORS.Reset : String := "\x1b[0m"

/-- `COLORS.Dim` from `hono-logger.ts`. -/
def COLORS.Dim : String := "\x1b[2m"

/-- `COLORS.hex` from `hono-logger.ts` (the source's `bg` parameter
defaults to `false`; every call site uses the default). -/
def COLORS.hex (hex : String) (bg : Bool) : String := hexToAnsi hex bg

/-- JSON string escaping as performed by `JSON.stringify` for the
characters that can occur in log context values. -/
def escapeJsonChar (c : Char) : String :=
  if c = '"' then "\\\""
  else if c = '\\' then "\\\\"
  else if c = '\n' then "\\n"
  else if c = '\t' then "\\t"
  else if c = '\r' then "\\r"
  else String.singleton c

/-- Escape a whole string for JSON output. -/
def escapeJsonString (s : String) : String :=
  String.join (s.toList.map escapeJsonChar)

/-- Two-space indentation at nesting depth `d`, as produced by
`JSON.stringify(v, null, 2)`. -/
def jsonIndent (d : Nat) : String := String.join (List.replicate d "  ")

mutual
/-- Pretty printer modelling `JSON.stringify(v, null, 2)` on the embedded
values: object properties with `undefined` value are dropped, `undefined`
array elements print as `null` (the only place `undefined` reaches this
function). -/
def renderJson (d : Nat) : JSVal → String
  | .undefined => "null"
  | .null => "null"
  | .bool b => if b then "true" else "false"
  | .num n => toString n
  | .str s => "\"" ++ escapeJsonString s ++ "\""
  | .arr xs =>
    let lines := renderJsonElems (d + 1) xs
    if lines.isEmpty then "[]"
    else "[\n" ++ String.intercalate ",\n" lines ++ "\n" ++ jsonIndent d ++ "]"
  | .obj fs =>
    let lines := renderJsonProps (d + 1) fs
    if lines.isEmpty then "\x7b\x7d"
    else "\x7b\n" ++ String.intercalate ",\n" lines ++ "\n"
      ++ jsonIndent d ++ "\x7d"

/-- Rendered lines of an array's elements at depth `d`. -/
def renderJsonElems (d : Nat) : List JSVal → List String
  | [] => []
  | v :: vs => (jsonIndent d ++ renderJson d v) :: renderJsonElems d vs

/-- Rendered lines of an object's properties at depth `d`;
`undefined`-valued properties are skipped. -/
def renderJsonProps (d : Nat) : List (String × JSVal) → List String
  | [] => []
  | (k, v) :: fs =>
    match v with
    | .undefined => renderJsonProps d fs
    | _ => (jsonIndent d ++ "\"" ++ escapeJsonString k ++ "\": "
        ++ renderJson d v) :: renderJsonProps d fs
end

/-- `formatContext` from `hono-logger.ts`: empty or absent context renders
to the empty string, otherwise a newline followed by the pretty-printed
JSON of the context. The source's catch branch (cyclic structures) is
unreachable on the inductive value space. -/
def formatContext (context : List (String × JSVal)) : String :=
  if context.isEmpty then "" else "\n" ++ renderJson 0 (.obj context)

/-- The closed set of log levels (`keyof typeof SENTRY_LEVELS`). -/
inductive LogLevel where
  | error | warn | log | debug | verbose
deriving DecidableEq, Repr

/-- `SENTRY_LEVELS` from `hono-logger.ts`: the fixed level-to-collector
severity table. -/
def SENTRY_LEVELS : LogLevel → String
  | .error => "error"
  | .warn => "warning"
  | .log => "info"
  | .debug => "debug"
  | .verbose => "debug"

/-- The structured log entry built by `createLogEntry`. -/
structure LogEntry where
  logId : Option String
  timestamp : String
  level : LogLevel
  message : String
  context : List (String × JSVal)
  contextStr : String
  fullMessage : String
deriving Repr

/-- `createLogEntry` from `hono-logger.ts`: a `logId` is generated exactly
for levels in `["error", "warn", "verbose"]`. `nid` stands for the
`nanoid()` capture, `now` for `new Date().toUTCString()`. -/
def createLogEntry (level : LogLevel) (message : String)
    (context : List (String × JSVal)) (nid now : String) : LogEntry :=
  let logId :=
    if level = .error ∨ level = .warn ∨ level = .verbose then some nid
    else none
  let contextStr := formatContext context
  { logId := logId, timestamp := now, level := level, message := message,
    context := context, contextStr := contextStr,
    fullMessage := message ++ contextStr }

/-- The closed `NODE_ENV` enumeration of `EnvSchema` in `src/env.ts`. -/
inductive NodeEnv where
  | development | test | production
deriving DecidableEq, Repr

/-- A call forwarded to the external collector (Sentry SDK), recorded with
the arguments the logger passes. Tag values are optional strings because
the source can place an `undefined` `logId` in a tag object. -/
inductive SentryCall where
  | addBreadcrumb (message : String) (level : String) (category : String)
      (data : List (String × JSVal))
  | captureException (message : String) (level : Option String)
      (tags : List (String × Option String))
      (extra : List (String × JSVal))
  | captureMessage (message : String) (level : String)
      (tags : List (String × Option String))
      (extra : List (String × JSVal))
  | setContext (key : String) (context : List (String × JSVal))
  | setUser (id email username : Option String)
  | setTag (key : String) (value : String)
deriving Repr

/-- JS property assignment on an object literal: overwrite in place when
the key exists, append otherwise. -/
def setProp : List (String × JSVal) → String → JSVal → List (String × JSVal)
  | [], k, v => [(k, v)]
  | (k', v') :: fs, k, v =>
    if k' = k then (k, v) :: fs else (k', v') :: setProp fs k v

/-- Object spread `{ ...base-literal, ...extra }`: each property of `extra`
is assigned over `base` in order. -/
def spreadInto (base extra : List (String × JSVal)) :
    List (String × JSVal) :=
  extra.foldl (fun acc kv => setProp acc kv.1 kv.2) base

/-- An optional string as a JS property value (`undefined` when absent). -/
def optStrVal : Option String → JSVal
  | some s => .str s
  | none => .undefined

/-- An optional string interpolated into a JS template literal
(`undefined` prints as the text `undefined`). -/
def jsTemplateOptStr (o : Option String) : String := o.getD "undefined"

/-- The observable effect of one logger call: the console line printed and
the collector calls made (in order). -/
structure LogEffect where
  consoleLine : String
  sentryCalls : List SentryCall
deriving Repr

/-- The parsed environment configuration of `src/env.ts` that the logger
reads (`NODE_ENV` is the closed enum of `EnvSchema`). -/
structure AppEnv where
  NODE_ENV : NodeEnv
  SENTRY_ENABLED : Bool
  SENTRY_ENABLE_LOGS : Bool

/-- `logger.error` from `hono-logger.ts`: console line, then — when both
collector flags are set — a breadcrumb at collector level `error` and a
captured synthetic exception carrying the message, tagged with the entry's
`logId`. -/
def logger.error (e : AppEnv) (message : String)
    (context : List (String × JSVal)) (nid now : String) : LogEffect :=
  let logEntry := createLogEntry .error message context nid now
  { consoleLine :=
      COLORS.Dim ++ "[" ++ logEntry.timestamp ++ "]: "
        ++ jsTemplateOptStr logEntry.logId ++ " -" ++ COLORS.Reset
        ++ COLORS.hex "#d11824ff" false ++ " ERROR - "
        ++ logEntry.fullMessage ++ COLORS.Reset,
    sentryCalls :=
      if e.SENTRY_ENABLED && e.SENTRY_ENABLE_LOGS then
        [.addBreadcrumb logEntry.message (SENTRY_LEVELS .error) "logger"
            (spreadInto [("logId", optStrVal logEntry.logId)]
              logEntry.context),
         .captureException logEntry.message (some "error")
            [("source", some "custom-logger"), ("logId", logEntry.logId)]
            logEntry.context]
      else [] }

/-- `logger.debug` from `hono-logger.ts`: console line; breadcrumb only,
and only when both flags are set and `NODE_ENV === "development"`. -/
def logger.debug (e : AppEnv) (message : String)
    (context : List (String × JSVal)) (nid now : String) : LogEffect :=
  let logEntry := createLogEntry .debug message context nid now
  { consoleLine :=
      COLORS.Dim ++ "[" ++ logEntry.timestamp ++ "]: -" ++ COLORS.Reset
        ++ COLORS.hex "#da61e7ff" false ++ " DEBUG - "
        ++ logEntry.fullMessage ++ COLORS.Reset,
    sentryCalls :=
      if e.SENTRY_ENABLED && e.SENTRY_ENABLE_LOGS
          && decide (e.NODE_ENV = NodeEnv.development) then
        [.addBreadcrumb logEntry.message (SENTRY_LEVELS .debug) "logger"
            logEntry.context]
      else [] }

/-- `logger.log` from `hono-logger.ts`: console line; breadcrumb only when
both flags are set. -/
def logger.log (e : AppEnv) (message : String)
    (context : List (String × JSVal)) (nid now : String) : LogEffect :=
  let logEntry := createLogEntry .log message context nid now
  { consoleLine :=
      COLORS.Dim ++ "[" ++ logEntry.timestamp ++ "]: -" ++ COLORS.Reset
        ++ COLORS.hex "#22b872ff" false ++ " LOG - "
        ++ logEntry.fullMessage ++ COLORS.Reset,
    sentryCalls :=
      if e.SENTRY_ENABLED && e.SENTRY_ENABLE_LOGS then
        [.addBreadcrumb logEntry.message (SENTRY_LEVELS .log) "logger"
            logEntry.context]
      else [] }

/-- `logger.warn` from `hono-logger.ts`: console line, then — when both
flags are set — a breadcrumb and a captured message at collector severity
`warning`, tagged with the entry's `logId`. -/
def logger.warn (e : AppEnv) (message : String)
    (context : List (String × JSVal)) (nid now : String) : LogEffect :=
  let logEntry := createLogEntry .warn message context nid now
  { consoleLine :=
      COLORS.Dim ++ "[" ++ logEntry.timestamp ++ "]: "
        ++ jsTemplateOptStr logEntry.logId ++ " -" ++ COLORS.Reset
        ++ COLORS.hex "#bb7339ff" false ++ " WARN - "
        ++ logEntry.fullMessage ++ COLORS.Reset,
    sentryCalls :=
      if e.SENTRY_ENABLED && e.SENTRY_ENABLE_LOGS then
        [.addBreadcrumb logEntry.message (SENTRY_LEVELS .warn) "logger"
            (spreadInto [("logId", optStrVal logEntry.logId)]
              logEntry.context),
         .captureMessage logEntry.message "warning"
            [("source", some "custom-logger"), ("logId", logEntry.logId)]
            logEntry.context]
      else [] }

/-- `logger.verbose` from `hono-logger.ts`: console line; breadcrumb only,
and only when both flags are set and `NODE_ENV === "development"`. -/
def logger.verbose (e : AppEnv) (message : String)
    (context : List (String × JSVal)) (nid now : String) : LogEffect :=
  let logEntry := createLogEntry .verbose message context nid now
  { consoleLine :=
      COLORS.Dim ++ "[" ++ logEntry.timestamp ++ "]: "
        ++ jsTemplateOptStr logEntry.logId ++ " -" ++ COLORS.Reset
        ++ COLORS.hex "#33c7de" false ++ " VERBOSE - "
        ++ logEntry.fullMessage ++ COLORS.Reset,
    sentryCalls :=
      if e.SENTRY_ENABLED && e.SENTRY_ENABLE_LOGS
          && decide (e.NODE_ENV = NodeEnv.development) then
        [.addBreadcrumb logEntry.message (SENTRY_LEVELS .verbose) "logger"
            (spreadInto [("logId", optStrVal logEntry.logId)]
              logEntry.context)]
      else [] }

/-- `logger.sentry.captureException` from `hono-logger.ts`: always prints
a console line; forwards to the collector exactly when `SENTRY_ENABLED`.
`errMessage` is the `.message` of the `Error` argument. -/
def logger.sentry.captureException (e : AppEnv) (errMessage : String)
    (context : List (String × JSVal)) (nid now : String) : LogEffect :=
  let logId := nid
  { consoleLine :=
      COLORS.Dim ++ "[" ++ now ++ "]: " ++ logId ++ " -" ++ COLORS.Reset
        ++ COLORS.hex "#d11824ff" false ++ " EXCEPTION - " ++ errMessage
        ++ COLORS.Reset,
    sentryCalls :=
      if e.SENTRY_ENABLED then
        [.captureException errMessage none
            [("source", some "custom-logger"), ("logId", some logId)]
            context]
      else [] }

/-- `logger.sentry.setContext` from `hono-logger.ts`. -/
def logger.sentry.setContext (e : AppEnv) (key : String)
    (context : List (String × JSVal)) : List SentryCall :=
  if e.SENTRY_ENABLED then [.setContext key context] else []

/-- `logger.sentry.setUser` from `hono-logger.ts`. -/
def logger.sentry.setUser (e : AppEnv)
    (id email username : Option String) : List SentryCall :=
  if e.SENTRY_ENABLED then [.setUser id email username] else []

/-- `logger.sentry.setTag` from `hono-logger.ts`. -/
def logger.sentry.setTag (e : AppEnv) (key value : String) :
    List SentryCall :=
  if e.SENTRY_ENABLED then [.setTag key value] else []

/-- `logger.sentry.captureMessage` from `hono-logger.ts` (the `nanoid()`
capture `nid` happens before the flag test; the source's `level` parameter
defaults to `"info"` at absent call sites). -/
def logger.sentry.captureMessage (e : AppEnv) (message : String)
    (level : String) (extra : List (String × JSVal)) (nid : String) :
    List SentryCall :=
  let logId := nid
  if e.SENTRY_ENABLED then
    [.captureMessage message level
        [("source", some "custom-logger"), ("logId", some logId)] extra]
  else []

/-- `logger.sentry.addBreadcrumb` from `hono-logger.ts` (source parameter
order: message, category, level, data). -/
def logger.sentry.addBreadcrumb (e : AppEnv) (message : String)
    (category : String) (level : String)
    (data : List (String × JSVal)) : List SentryCall :=
  if e.SENTRY_ENABLED then [.addBreadcrumb message level category data]
  else []

/-- Classifier: is a collector call a breadcrumb? -/
def isBreadcrumbCall : SentryCall → Bool
  | .addBreadcrumb .. => true
  | _ => false

/-- Classifier: is a collector call a capture (exception or message)? -/
def isCaptureCall : SentryCall → Bool
  | .captureException .. => true
  | .captureMessage .. => true
  | _ => false

/-- Spec-side shape of one serialized validation issue, following the
spec's words for C1: `{message, path, code}` where the dot-joined `path`
is absent when it is empty (root-level) and `code` is the issue's code
(Zod codes are non-empty, which the C1 theorem assumes). -/
def specValidationIssue (issue : ZodIssue) : JSVal :=
  .obj ([("message", .str issue.message)]
    ++ (if String.intercalate "." issue.path = "" then []
        else [("path", .str (String.intercalate "." issue.path))])
    ++ [("code", .str issue.code)])

/-- Spec-side shape of the serialized `error.issues` array for C1: the
per-issue mapping when structured issues are available, otherwise the
singleton generic issue. -/
def specValidationIssues (errorIssues : Option (List ZodIssue)) :
    List JSVal :=
  match errorIssues with
  | some zi => zi.map specValidationIssue
  | none => [.obj [("message", .str "Validation failed")]]

/-- The JSON body the default hook's `c.json(...)` serializes onto the
wire: the envelope component of the hook result after the platform JSON
round trip (`undefined` when the hook returned nothing). -/
def hookSerializedBody (result : HookResult) (rid : Option String)
    (now : String) : JSVal :=
  (jsonRoundTrip
    (((createDefaultHook true result rid now).map Prod.fst).getD
      .undefined)).getD .undefined

lemma lookupKey_append (l1 l2 : List (String × JSVal)) (k : String) :
    lookupKey (l1 ++ l2) k
      = ((lookupKey l1 k).elim (lookupKey l2 k) some) := by
  induction l1 with
  | nil => simp [lookupKey]
  | cons kv rest ih =>
    obtain ⟨k', v⟩ := kv
    by_cases h : k' = k <;> simp [lookupKey, h, ih]

/-- C2: the success builder attaches `data` exactly when the caller
supplied one (not `undefined`) and the status key is not `NO_CONTENT`;
under `NO_CONTENT` a supplied `data` is silently dropped. -/
theorem C2_no_content_drops_data (o : ResponseOptions) (now : String) :
    lookupField (HONO_RESPONSE o now) "data"
      = if o.statusCode.getD .OK = .NO_CONTENT then none else o.data := by
  unfold HONO_RESPONSE lookupField
  cases hd : o.data with
  | none =>
    simp [lookupKey_append, lookupKey]
    split <;> split <;> simp [lookupKey]
  | some d =>
    simp [lookupKey_append, lookupKey]
    split <;> split <;> split <;> simp [lookupKey]

/-- C6 (amended): every error envelope has `success = false`, the status
key's numeric code, a `name` defaulting to the status phrase (or `Error`
when unmapped), `issues` equal to the caller's issues when supplied and to
the singleton `[{message}]` otherwise (hence non-empty in the default
case), and a timestamp exactly when the timestamp flag is on (default);
in particular `HONO_ERROR "UNPROCESSABLE_ENTITY" "bad input"` yields name
`Unprocessable Entity`, issues `[{message: "bad input"}]`, statusCode 422
and a timestamp. -/
theorem C6_error_builder_envelope (k : HTTPStatusKey) (msg : String)
    (o : ErrorOptions) (now : String) :
    lookupField (HONO_ERROR k msg o now) "success" = some (.bool false)
    ∧ lookupField (HONO_ERROR k msg o now) "statusCode"
        = some (.num (HTTP k))
    ∧ lookupField2 (HONO_ERROR k msg o now) "error" "name"
        = some (.str (o.name.getD
            ((HTTP_STATUS_PHRASE (HTTP k)).getD "Error")))
    ∧ lookupField2 (HONO_ERROR k msg o now) "error" "issues"
        = some (.arr (errorIssuesOf o.issues msg))
    ∧ (errorIssuesOf none msg).length = 1
    ∧ lookupField (HONO_ERROR k msg o now) "timestamp"
        = (if o.timestamp.getD true then some (.str now) else none)
    ∧ lookupField2 (HONO_ERROR .UNPROCESSABLE_ENTITY "bad input" {} "TS")
        "error" "name" = some (.str "Unprocessable Entity")
    ∧ lookupField (HONO_ERROR .UNPROCESSABLE_ENTITY "bad input" {} "TS")
        "statusCode" = some (.num 422)
    ∧ lookupField2 (HONO_ERROR .UNPROCESSABLE_ENTITY "bad input" {} "TS")
        "error" "issues"
        = some (.arr [.obj [("message", .str "bad input")]])
    ∧ lookupField (HONO_ERROR .UNPROCESSABLE_ENTITY "bad input" {} "TS")
        "timestamp" = some (.str "TS") := by
  refine ⟨?_, ?_, ?_, ?_, rfl, ?_, rfl, rfl, rfl, rfl⟩ <;>
    · simp only [HONO_ERROR, lookupField2, lookupField]
      simp [lookupKey_append, lookupKey]
      try split <;> (try split) <;> simp [lookupKey]

/-- C6 counterexample: with an explicitly supplied empty `issues` array the
error envelope's `error.issues` is empty — JS `issues || [{message}]`
treats the empty array as truthy, so the claimed unconditional
non-emptiness fails at this input. -/
theorem C6_counterexample_empty_issues :
    lookupField2 (HONO_ERROR .UNPROCESSABLE_ENTITY "bad input"
        { issues := some [] } "TS") "error" "issues"
      = some (.arr []) ∧ ([] : List JSVal).length = 0 := ⟨rfl, rfl⟩

/-- C7 (amended): the predicates are total and never truthy on malformed
input, but JS `&&` returns its first falsy operand, so on a falsy input
(such as `null` or `0`) they return that input itself rather than the
boolean `false`; on every truthy input whose `success` property is not a
boolean (numbers, `{}`, strings, objects missing the field or holding a
non-boolean there) both predicates return the boolean `false`; envelopes
from the builders are classified correctly (`isError` true / `isSuccess`
false on error envelopes and conversely on success envelopes). -/
theorem C7_predicate_classification (v : JSVal) (o : ResponseOptions)
    (k : HTTPStatusKey) (msg : String) (eo : ErrorOptions) (now : String) :
    (jsTruthy v = false →
      isErrorResponse v = v ∧ isSuccessResponse v = v)
    ∧ (jsTruthy v = true →
        (∀ b, getField v "success" ≠ .bool b) →
        isErrorResponse v = .bool false
          ∧ isSuccessResponse v = .bool false)
    ∧ isErrorResponse (.num 42) = .bool false
    ∧ isSuccessResponse (.num 42) = .bool false
    ∧ isErrorResponse (.obj []) = .bool false
    ∧ isSuccessResponse (.obj []) = .bool false
    ∧ isErrorResponse (HONO_ERROR k msg eo now) = .bool true
    ∧ isSuccessResponse (HONO_ERROR k msg eo now) = .bool false
    ∧ isSuccessResponse (HONO_RESPONSE o now) = .bool true
    ∧ isErrorResponse (HONO_RESPONSE o now) = .bool false := by
  refine ⟨fun h => ?_, fun hT hS => ?_, rfl, rfl, rfl, rfl, ?_, ?_, ?_, ?_⟩
  · constructor <;> simp [isErrorResponse, isSuccessResponse, h]
  · have hf : isFalseVal (getField v "success") = false := by
      cases hx : getField v "success" with
      | bool b => exact absurd hx (hS b)
      | undefined => rfl
      | null => rfl
      | num n => rfl
      | str s => rfl
      | arr xs => rfl
      | obj fs => rfl
    have ht : isTrueVal (getField v "success") = false := by
      cases hx : getField v "success" with
      | bool b => exact absurd hx (hS b)
      | undefined => rfl
      | null => rfl
      | num n => rfl
      | str s => rfl
      | arr xs => rfl
      | obj fs => rfl
    constructor <;>
      simp [isErrorResponse, isSuccessResponse, hT, hf, ht]
  all_goals
    simp [HONO_ERROR, HONO_RESPONSE, isErrorResponse, isSuccessResponse,
      jsTruthy, getField, lookupKey, isFalseVal, isTrueVal]

/-- C7 witness: the amended claim instantiated at the falsy input `null`
(both predicates return `null` itself) and at the truthy input `"oops"`,
a value without a boolean `success` property (both predicates return the
boolean `false`). -/
theorem C7_predicate_classification_witness :
    (isErrorResponse JSVal.null = JSVal.null
      ∧ isSuccessResponse JSVal.null = JSVal.null)
    ∧ (isErrorResponse (.str "oops") = .bool false
      ∧ isSuccessResponse (.str "oops") = .bool false) :=
  ⟨(C7_predicate_classification .null {} .OK "m" {} "t").1 rfl,
   (C7_predicate_classification (.str "oops") {} .OK "m" {} "t").2.1
     (by decide) (fun b h => JSVal.noConfusion h)⟩

/-- C7 counterexample: `isErrorResponse(null)` evaluates to `null`, which
is not the boolean `false` the claim requires (JS `null && x` returns
`null`). -/
theorem C7_counterexample_null_input :
    isErrorResponse JSVal.null = JSVal.null
    ∧ JSVal.null ≠ JSVal.bool false := by
  refine ⟨rfl, ?_⟩
  intro h
  exact JSVal.noConfusion h

lemma retrieved_message_ne_empty (n : Nat) :
    ("Retrieved " ++ toString n ++ " items") ≠ "" := by
  intro h
  have h' := congrArg String.length h
  simp [String.length_append] at h'
  have h10 : "Retrieved ".length = 10 := rfl
  omega

lemma strOr_some_ne_empty (s : String) (b : String) (hs : s ≠ "") :
    strOr (some s) b = s := by
  simp [strOr, hs]

lemma strOr_ne_empty (a : Option String) (b : String) (hb : b ≠ "") :
    strOr a b ≠ "" := by
  cases a with
  | none => simpa [strOr] using hb
  | some s =>
    by_cases hs : s = "" <;> simp [strOr, hs, hb]

/-- C8: the paginated builder derives `hasNext = page < totalPages` and
`hasPrev = page > 1` only when the caller did not supply them (nullish
coalescing: a supplied `false` is kept), and the envelope message defaults
to `Retrieved N items` when no message is supplied; in particular
`buildPaginated([1,2,3], {page: 2, limit: 3, total: 10, totalPages: 4})`
has `hasNext = true`, `hasPrev = true` and message `Retrieved 3 items`. -/
theorem C8_paginated_builder (items : List JSVal) (p : Pagination)
    (o : ResponseOptions) (now : String) :
    lookupField (paginationData p) "hasNext"
      = some (.bool (p.hasNext.getD (decide (p.page < p.totalPages))))
    ∧ lookupField (paginationData p) "hasPrev"
      = some (.bool (p.hasPrev.getD (decide (p.page > 1))))
    ∧ lookupField (paginationData
          { page := 5, limit := 1, total := 9, totalPages := 2,
            hasNext := some false, hasPrev := some false }) "hasNext"
      = some (.bool false)
    ∧ lookupField (HONO_PAGINATED_RESPONSE items p o now) "message"
      = some (.str (strOr o.message
          ("Retrieved " ++ toString items.length ++ " items")))
    ∧ lookupField ((lookupField2 (HONO_PAGINATED_RESPONSE
          [.num 1, .num 2, .num 3]
          { page := 2, limit := 3, total := 10, totalPages := 4 } {} "TS")
          "data" "pagination").getD .undefined) "hasNext" = some (.bool true)
    ∧ lookupField ((lookupField2 (HONO_PAGINATED_RESPONSE
          [.num 1, .num 2, .num 3]
          { page := 2, limit := 3, total := 10, totalPages := 4 } {} "TS")
          "data" "pagination").getD .undefined) "hasPrev" = some (.bool true)
    ∧ lookupField (HONO_PAGINATED_RESPONSE [.num 1, .num 2, .num 3]
          { page := 2, limit := 3, total := 10, totalPages := 4 } {} "TS")
          "message" = some (.str "Retrieved 3 items") := by
  refine ⟨?_, ?_, rfl, ?_, rfl, rfl, rfl⟩
  · cases h : p.hasNext <;> simp [paginationData, lookupField, lookupKey, h]
  · cases h : p.hasPrev <;> simp [paginationData, lookupField, lookupKey, h]
  · have ht := retrieved_message_ne_empty items.length
    have hinner := strOr_ne_empty o.message
      ("Retrieved " ++ toString items.length ++ " items") ht
    simp only [HONO_PAGINATED_RESPONSE, HONO_RESPONSE, lookupField]
    simp [lookupKey_append, lookupKey,
      strOr_some_ne_empty _ _ hinner]

/-- C3: a log entry carries an identifier exactly when its level is
`error`, `warn` or `verbose` (never for `log` or `debug`), and identifier
presence is a function of the level alone — two entries of the same level
never differ in whether they carry one. -/
theorem C3_identifier_iff_level (l : LogLevel) (m m' : String)
    (c c' : List (String × JSVal)) (nid nid' now now' : String) :
    (createLogEntry l m c nid now).logId.isSome
      = decide (l = .error ∨ l = .warn ∨ l = .verbose)
    ∧ (createLogEntry l m c nid now).logId.isSome
      = (createLogEntry l m' c' nid' now').logId.isSome := by
  cases l <;> simp [createLogEntry]

/-- C4: `logger.debug` and `logger.verbose` forward exactly one breadcrumb
to the collector when `SENTRY_ENABLED`, `SENTRY_ENABLE_LOGS` and
`NODE_ENV = development` all hold, and make zero collector calls in every
other combination; neither level ever captures an exception or a
message. -/
theorem C4_debug_verbose_development_gate (e : AppEnv) (m : String)
    (c : List (String × JSVal)) (nid now : String) :
    (logger.debug e m c nid now).sentryCalls
      = (if e.SENTRY_ENABLED && e.SENTRY_ENABLE_LOGS
            && decide (e.NODE_ENV = NodeEnv.development)
         then [SentryCall.addBreadcrumb m "debug" "logger" c] else [])
    ∧ (logger.verbose e m c nid now).sentryCalls
      = (if e.SENTRY_ENABLED && e.SENTRY_ENABLE_LOGS
            && decide (e.NODE_ENV = NodeEnv.development)
         then [SentryCall.addBreadcrumb m "debug" "logger"
            (spreadInto [("logId", .str nid)] c)] else [])
    ∧ List.countP isCaptureCall (logger.debug e m c nid now).sentryCalls
        = 0
    ∧ List.countP isCaptureCall (logger.verbose e m c nid now).sentryCalls
        = 0
    ∧ List.countP isBreadcrumbCall (logger.debug e m c nid now).sentryCalls
      = (if e.SENTRY_ENABLED && e.SENTRY_ENABLE_LOGS
            && decide (e.NODE_ENV = NodeEnv.development) then 1 else 0)
    ∧ List.countP isBreadcrumbCall
        (logger.verbose e m c nid now).sentryCalls
      = (if e.SENTRY_ENABLED && e.SENTRY_ENABLE_LOGS
            && decide (e.NODE_ENV = NodeEnv.development) then 1 else 0) := by
  obtain ⟨ne, en, logs⟩ := e
  cases en <;> cases logs <;> cases ne <;>
    simp [logger.debug, logger.verbose, createLogEntry, SENTRY_LEVELS,
      optStrVal, isCaptureCall, isBreadcrumbCall]

/-- C5: with both flags set, `logger.error` adds exactly one breadcrumb at
collector level `error` and separately captures a synthetic exception
carrying the message, tagged with the entry's identifier; `logger.warn`
adds exactly one breadcrumb and captures a message at collector severity
`warning`, tagged with the identifier; with either flag unset neither
level makes any collector call. -/
theorem C5_error_warn_double_forwarding (e : AppEnv) (m : String)
    (c : List (String × JSVal)) (nid now : String) :
    (logger.error e m c nid now).sentryCalls
      = (if e.SENTRY_ENABLED && e.SENTRY_ENABLE_LOGS then
          [SentryCall.addBreadcrumb m "error" "logger"
              (spreadInto [("logId", .str nid)] c),
           SentryCall.captureException m (some "error")
              [("source", some "custom-logger"), ("logId", some nid)] c]
         else [])
    ∧ (logger.warn e m c nid now).sentryCalls
      = (if e.SENTRY_ENABLED && e.SENTRY_ENABLE_LOGS then
          [SentryCall.addBreadcrumb m "warning" "logger"
              (spreadInto [("logId", .str nid)] c),
           SentryCall.captureMessage m "warning"
              [("source", some "custom-logger"), ("logId", some nid)] c]
         else [])
    ∧ List.countP isBreadcrumbCall (logger.error e m c nid now).sentryCalls
      = (if e.SENTRY_ENABLED && e.SENTRY_ENABLE_LOGS then 1 else 0)
    ∧ List.countP isBreadcrumbCall (logger.warn e m c nid now).sentryCalls
      = (if e.SENTRY_ENABLED && e.SENTRY_ENABLE_LOGS then 1 else 0) := by
  obtain ⟨ne, en, logs⟩ := e
  cases en <;> cases logs <;>
    simp [logger.error, logger.warn, createLogEntry, SENTRY_LEVELS,
      optStrVal, isCaptureCall, isBreadcrumbCall]

/-- C10: each operation of the collector sub-interface forwards exactly
when the single flag `SENTRY_ENABLED` is set — the right-hand sides below
depend only on that flag, not on `SENTRY_ENABLE_LOGS` or `NODE_ENV` — and
makes zero collector calls when it is unset. -/
theorem C10_sentry_subinterface_single_flag (ne : NodeEnv)
    (en logs : Bool) (errMessage msg key value level cat : String)
    (ctx data : List (String × JSVal))
    (id email username : Option String) (nid now : String) :
    (logger.sentry.captureException ⟨ne, en, logs⟩ errMessage ctx nid
        now).sentryCalls
      = (if en then
          [SentryCall.captureException errMessage none
              [("source", some "custom-logger"), ("logId", some nid)] ctx]
         else [])
    ∧ logger.sentry.captureMessage ⟨ne, en, logs⟩ msg level ctx nid
      = (if en then
          [SentryCall.captureMessage msg level
              [("source", some "custom-logger"), ("logId", some nid)] ctx]
         else [])
    ∧ logger.sentry.setContext ⟨ne, en, logs⟩ key ctx
      = (if en then [SentryCall.setContext key ctx] else [])
    ∧ logger.sentry.setUser ⟨ne, en, logs⟩ id email username
      = (if en then [SentryCall.setUser id email username] else [])
    ∧ logger.sentry.setTag ⟨ne, en, logs⟩ key value
      = (if en then [SentryCall.setTag key value] else [])
    ∧ logger.sentry.addBreadcrumb ⟨ne, en, logs⟩ msg cat level data
      = (if en then [SentryCall.addBreadcrumb msg level cat data]
         else []) := by
  cases en <;>
    simp [logger.sentry.captureException, logger.sentry.captureMessage,
      logger.sentry.setContext, logger.sentry.setUser,
      logger.sentry.setTag, logger.sentry.addBreadcrumb]

/-- C9: serializing any builder-produced envelope to JSON and parsing it
back (the `jsonRoundTrip` model of `JSON.parse(JSON.stringify(·))`) yields
a value on which the matching predicate returns `true` and the other
returns `false`, for all three builders and all options. -/
theorem C9_round_trip_preserves_discriminant (o : ResponseOptions)
    (k : HTTPStatusKey) (msg : String) (eo : ErrorOptions)
    (items : List JSVal) (p : Pagination) (po : ResponseOptions)
    (now : String) :
    isSuccessResponse ((jsonRoundTrip (HONO_RESPONSE o now)).getD .undefined)
      = .bool true
    ∧ isErrorResponse ((jsonRoundTrip (HONO_RESPONSE o now)).getD .undefined)
      = .bool false
    ∧ isErrorResponse
        ((jsonRoundTrip (HONO_ERROR k msg eo now)).getD .undefined)
      = .bool true
    ∧ isSuccessResponse
        ((jsonRoundTrip (HONO_ERROR k msg eo now)).getD .undefined)
      = .bool false
    ∧ isSuccessResponse ((jsonRoundTrip
        (HONO_PAGINATED_RESPONSE items p po now)).getD .undefined)
      = .bool true
    ∧ isErrorResponse ((jsonRoundTrip
        (HONO_PAGINATED_RESPONSE items p po now)).getD .undefined)
      = .bool false := by
  refine ⟨?_, ?_, ?_, ?_, ?_, ?_⟩ <;>
    simp [HONO_RESPONSE, HONO_ERROR, HONO_PAGINATED_RESPONSE,
      jsonRoundTrip, jsonRoundTripProps, isSuccessResponse,
      isErrorResponse, jsTruthy, getField, lookupKey, isTrueVal,
      isFalseVal]

lemma roundTrip_zodIssue (i : ZodIssue) (h : i.code ≠ "") :
    jsonRoundTrip (zodIssueToJS i) = some (specValidationIssue i) := by
  unfold zodIssueToJS specValidationIssue
  by_cases hp : String.intercalate "." i.path = "" <;>
    simp [jsonRoundTrip, jsonRoundTripProps, hp, h]

lemma roundTripElems_map_zod (zi : List ZodIssue)
    (h : ∀ i ∈ zi, i.code ≠ "") :
    jsonRoundTripElems (zi.map zodIssueToJS)
      = zi.map specValidationIssue := by
  induction zi with
  | nil => simp [jsonRoundTripElems]
  | cons i rest ih =>
    have hi : i.code ≠ "" := h i (by simp)
    have hrest : ∀ j ∈ rest, j.code ≠ "" := fun j hj => h j (by simp [hj])
    simp [jsonRoundTripElems, roundTrip_zodIssue i hi, ih hrest]

/-- C1: on a failed validation result the default hook returns a JSON
response with status 422 whose serialized body is the error envelope built
with message `Validation failed`: `success = false`, `statusCode = 422`,
`error.name = "Validation Error"`, and `error.issues` the per-issue
mapping `{message, path, code}` (`path` dot-joined and absent when the
joined path is empty) when structured issues are available, else exactly
`[{message: "Validation failed"}]`. The code hypothesis records the
collaborator contract that Zod issue codes are non-empty. -/
theorem C1_default_hook_validation_envelope (result : HookResult)
    (rid : Option String) (now : String)
    (hfail : result.success = false)
    (hcodes : ∀ i ∈ result.errorIssues.getD [], i.code ≠ "") :
    (createDefaultHook true result rid now).map Prod.snd = some 422
    ∧ lookupField (hookSerializedBody result rid now) "success"
        = some (.bool false)
    ∧ lookupField (hookSerializedBody result rid now) "statusCode"
        = some (.num 422)
    ∧ lookupField (hookSerializedBody result rid now) "timestamp"
        = some (.str now)
    ∧ lookupField2 (hookSerializedBody result rid now) "error" "name"
        = some (.str "Validation Error")
    ∧ lookupField2 (hookSerializedBody result rid now) "error" "issues"
        = some (.arr (specValidationIssues result.errorIssues)) := by
  cases hE : result.errorIssues with
  | some zi =>
    have hmap : jsonRoundTripElems (zi.map zodIssueToJS)
        = zi.map specValidationIssue := by
      apply roundTripElems_map_zod
      intro i hi
      exact hcodes i (by simp [hE, hi])
    refine ⟨?_, ?_, ?_, ?_, ?_, ?_⟩ <;>
      · simp only [hookSerializedBody, createDefaultHook, HONO_ERROR,
          hfail, hE, lookupField2, lookupField, specValidationIssues]
        simp [jsonRoundTrip, jsonRoundTripProps, hmap, errorIssuesOf,
          UNPROCESSABLE_ENTITY, HTTP, lookupKey_append, lookupKey]
  | none =>
    refine ⟨?_, ?_, ?_, ?_, ?_, ?_⟩ <;>
      · simp only [hookSerializedBody, createDefaultHook, HONO_ERROR,
          hfail, hE, lookupField2, lookupField, specValidationIssues]
        simp [jsonRoundTrip, jsonRoundTripProps, jsonRoundTripElems,
          errorIssuesOf, UNPROCESSABLE_ENTITY, HTTP, lookupKey_append,
          lookupKey]

/-- C1 witness: the hook evaluated on a concrete failed validation result
with two structured issues (one nested path, one root-level path). -/
theorem C1_default_hook_validation_envelope_witness :
    (createDefaultHook true
        ⟨false, some [⟨"Required", ["user", "email"], "invalid_type"⟩,
                      ⟨"Bad input", [], "custom"⟩]⟩
        (some "req-1") "TS").map Prod.snd = some 422
    ∧ lookupField2 (hookSerializedBody
        ⟨false, some [⟨"Required", ["user", "email"], "invalid_type"⟩,
                      ⟨"Bad input", [], "custom"⟩]⟩
        (some "req-1") "TS") "error" "issues"
      = some (.arr
          [.obj [("message", .str "Required"),
                 ("path", .str "user.email"),
                 ("code", .str "invalid_type")],
           .obj [("message", .str "Bad input"),
                 ("code", .str "custom")]]) := by
  have h := C1_default_hook_validation_envelope
    ⟨false, some [⟨"Required", ["user", "email"], "invalid_type"⟩,
                  ⟨"Bad input", [], "custom"⟩]⟩
    (some "req-1") "TS" rfl (by decide)
  refine ⟨h.1, ?_⟩
  have h6 := h.2.2.2.2.2
  simpa [specValidationIssues, specValidationIssue,
    String.intercalate] using h6
